import Mathlib

/-!
# Tracing wrappers of `go2sky-plugins/sql`

A shallow embedding of `sql/driver.go`, `sql/conn.go` and `sql/driver/stmt.go`.

Every wrapper method is a function from a `World` to a result and a new `World`. The world
records, in order, every call made on the tracer, on a span and on the wrapped backend, so
that "is invoked", "is ended once" and "before" are statements about a list of events.

The wrapped backend is a record of responses, one field per method of the `database/sql/driver`
interfaces; an optional interface (`driver.Pinger`, `driver.ExecerContext`, ...) is an `Option`
field, and the Go type assertion `x, ok := c.conn.(driver.Pinger)` is a match on that field.
-/

set_option linter.dupNamespace false

namespace Sql

/-! ## Values exchanged with the backend -/

/-- A Go `error` value; `Error` is the text `err.Error()` returns. -/
structure GoError where
  Error : String
  deriving DecidableEq, Repr

/-- A `context.Context`, told apart by a number. -/
structure Context where
  id : Nat
  deriving DecidableEq, Repr

/-- The context `context.Background()`. -/
def Context.Background : Context := ⟨0⟩

/-- A `driver.Value`. -/
inductive Value where
  | null
  | int (n : Int)
  | str (s : String)
  | bool (b : Bool)
  deriving DecidableEq, Repr

/-- A `driver.NamedValue`. -/
structure NamedValue where
  Name : String
  Ordinal : Int
  Value : Value
  deriving DecidableEq, Repr

/-- A `driver.Result`. -/
structure Result where
  LastInsertId : Int
  RowsAffected : Int
  deriving DecidableEq, Repr

/-- A `driver.Rows`, as the column names and the rows it will yield. -/
structure Rows where
  Columns : List String
  data : List (List Value)
  deriving DecidableEq, Repr

/-- A `driver.TxOptions`. -/
structure TxOptions where
  Isolation : Int
  ReadOnly : Bool
  deriving DecidableEq, Repr

/-- `DBType` of `driver.go`. -/
abbrev DBType := String

/-- `MYSQL` of `driver.go`. -/
def MYSQL : DBType := "mysql"

/-- `IPV4` of `driver.go`. -/
def IPV4 : DBType := "others"

/-! ## The event log -/

/-- A `go2sky.Span` handle: the number the tracer gave the span. -/
structure Span where
  id : Nat
  deriving DecidableEq, Repr

/-- A method call on the wrapped backend (driver, connection or statement). -/
inductive Call where
  | driverOpen (name : String)
  | ping (ctx : Context)
  | prepare (query : String)
  | prepareContext (ctx : Context) (query : String)
  | close
  | begin
  | beginTx (ctx : Context) (opts : TxOptions)
  | exec (query : String) (args : List Value)
  | execContext (ctx : Context) (query : String) (args : List NamedValue)
  | query (query : String) (args : List Value)
  | queryContext (ctx : Context) (query : String) (args : List NamedValue)
  | stmtClose
  | stmtNumInput
  | stmtExec (args : List Value)
  | stmtExecContext (ctx : Context) (args : List NamedValue)
  | stmtQuery (args : List Value)
  | stmtQueryContext (ctx : Context) (args : List NamedValue)
  deriving DecidableEq, Repr

/-- One observable step. `createSpan` and `createExitSpan` record a call on the tracer with
the span it returned (`none` when it returned an error); `tag`, `error` and `spanEnd` are the
calls `span.Tag`, `span.Error` and `span.End`; `call` is a call on the backend. The time
stamp passed to `span.Error` is not recorded. -/
inductive Event where
  | createSpan (ctx : Context) (operation : String) (span : Option Span)
  | createExitSpan (ctx : Context) (operation : String) (peer : String) (span : Option Span)
  | tag (span : Span) (key : String) (value : String)
  | error (span : Span) (message : String)
  | spanEnd (span : Span)
  | call (c : Call)
  deriving DecidableEq, Repr

/-- The state threaded through every operation: the number of the next span the tracer
hands out and the events so far, oldest first. -/
structure World where
  nextSpan : Nat
  trace : List Event
  deriving DecidableEq, Repr

/-- Append one event to the log. -/
def World.emit (w : World) (e : Event) : World :=
  { w with trace := w.trace ++ [e] }

/-- The call `span.Tag(key, value)`. -/
def Span.Tag (s : Span) (key value : String) (w : World) : World :=
  w.emit (.tag s key value)

/-- The call `span.Error(time.Now(), message)`. -/
def Span.Error (s : Span) (message : String) (w : World) : World :=
  w.emit (.error s message)

/-- The call `span.End()`. -/
def Span.End (s : Span) (w : World) : World :=
  w.emit (.spanEnd s)

/-! ## The tracer and the backend -/

/-- The `*go2sky.Tracer`, an external service: for each request it either accepts (`none`) or
answers with an error. -/
structure Tracer where
  CreateLocalSpan : Context → String → Option GoError
  CreateExitSpan : Context → String → String → Option GoError

/-- A `driver.Tx` of the backend: what `Commit` and `Rollback` return. -/
structure DriverTx where
  Commit : Option GoError
  Rollback : Option GoError
  deriving DecidableEq, Repr

/-- A `driver.Stmt` of the backend. `ExecContext` and `QueryContext` are present when the
statement implements `driver.StmtExecContext` and `driver.StmtQueryContext`. -/
structure DriverStmt where
  Close : Option GoError
  NumInput : Int
  Exec : List Value → Option Result × Option GoError
  Query : List Value → Option Rows × Option GoError
  ExecContext : Option (Context → List NamedValue → Option Result × Option GoError)
  QueryContext : Option (Context → List NamedValue → Option Rows × Option GoError)

/-- A `driver.Conn` of the backend. `Prepare`, `Close` and `Begin` are mandatory; each other
field is an optional interface, named after it. A call that yields a handle answers with the
handle or with an error. -/
structure DriverConn where
  Prepare : String → Except GoError DriverStmt
  Close : Option GoError
  Begin : Except GoError DriverTx
  Pinger : Option (Context → Option GoError)
  ConnPrepareContext : Option (Context → String → Except GoError DriverStmt)
  ConnBeginTx : Option (Context → TxOptions → Except GoError DriverTx)
  Execer : Option (String → List Value → Option Result × Option GoError)
  ExecerContext : Option (Context → String → List NamedValue → Option Result × Option GoError)
  Queryer : Option (String → List Value → Option Rows × Option GoError)
  QueryerContext : Option (Context → String → List NamedValue → Option Rows × Option GoError)

/-- A `driver.Driver` of the backend. -/
structure Driver where
  Open : String → Except GoError DriverConn

/-! ## Declarations the wrappers use that are not part of the sources -/

/-- Modelled from the spec: the `options` record (its declaration is not in the sources), the
Configuration of the data model: `dbType`, `peer`, `reportQuery`, `reportParam`. -/
structure options where
  dbType : DBType
  peer : String
  reportQuery : Bool
  reportParam : Bool
  deriving DecidableEq, Repr

/-- Modelled from the spec: the error `ErrUnsupportedOp` (its declaration is not in the
sources), the `UnsupportedOperation` error kind. -/
def ErrUnsupportedOp : GoError := ⟨"operation unsupported by the underlying driver"⟩

/-- Modelled from the spec: the error kind `NamedParametersUnsupported` that
`namedValueToValue` fails with. -/
def ErrNamedParameters : GoError := ⟨"sql: driver does not support the use of Named Parameters"⟩

/-- Modelled from the spec: tag key `db.type` of the span tag vocabulary. -/
def tagDbType : String := "db.type"

/-- Modelled from the spec: tag key `db.instance` of the span tag vocabulary. -/
def tagDbInstance : String := "db.instance"

/-- Modelled from the spec: tag key `db.statement` of the span tag vocabulary. -/
def tagDbStatement : String := "db.statement"

/-- Modelled from the spec: tag key `db.sql.parameters` of the span tag vocabulary. -/
def tagDbSqlParameters : String := "db.sql.parameters"

/-- Modelled from the spec: `genOpName` (not in the sources); the open span is named
`<dbType>/open`. -/
def genOpName (dbType : DBType) (operation : String) : String :=
  dbType ++ "/" ++ operation

/-- Modelled from the spec: `namedValueToValue` (not in the sources), the Value Adapter
`NamedToPositional`: an argument with a non-empty name makes the conversion fail, otherwise
the values are projected in the order given. -/
def namedValueToValue : List NamedValue → Except GoError (List Value)
  | [] => .ok []
  | param :: rest =>
    if param.Name.length > 0 then .error ErrNamedParameters
    else
      match namedValueToValue rest with
      | .error err => .error err
      | .ok dargs => .ok (param.Value :: dargs)

/-- Rendering of one value for a tag. -/
def Value.render : Value → String
  | .null => "<nil>"
  | .int n => toString n
  | .str s => s
  | .bool b => toString b

/-- Modelled from the spec: `namedValueToValueString` (not in the sources), the Value Adapter
`NamedToDisplayString`: never fails, comma-joined rendering of the values. -/
def namedValueToValueString (args : List NamedValue) : String :=
  ", ".intercalate (args.map fun a => a.Value.render)

/-- Modelled from the spec: `createSpan` (not in the sources), the Span Helper `CreateSpan`:
asks the tracer for a span named `operation` under `ctx`; the tracer's error is returned as
it is, otherwise the new span. The call is logged with its outcome. -/
def createSpan (ctx : Context) (tracer : Tracer) (_opts : Option options) (operation : String)
    (w : World) : Except GoError Span × World :=
  match tracer.CreateLocalSpan ctx operation with
  | some err => (.error err, w.emit (.createSpan ctx operation none))
  | none =>
    let s : Span := ⟨w.nextSpan⟩
    (.ok s, { nextSpan := w.nextSpan + 1,
              trace := w.trace ++ [.createSpan ctx operation (some s)] })

/-- The method `tracer.CreateExitSpan(ctx, operation, peer, injector)` of the external
tracer, logged with its outcome. -/
def Tracer.createExitSpan (tracer : Tracer) (ctx : Context) (operation peer : String)
    (w : World) : Except GoError Span × World :=
  match tracer.CreateExitSpan ctx operation peer with
  | some err => (.error err, w.emit (.createExitSpan ctx operation peer none))
  | none =>
    let s : Span := ⟨w.nextSpan⟩
    (.ok s, { nextSpan := w.nextSpan + 1,
              trace := w.trace ++ [.createExitSpan ctx operation peer (some s)] })

/-! ## The wrappers -/

/-- How a wrapper method finishes: it returns, or it crashes on dereferencing a nil `opts`
pointer (a Go run-time panic; deferred calls still run). -/
inductive Outcome (α : Type) where
  | ret (a : α)
  | nilDeref
  deriving DecidableEq, Repr

/-- A value of the interface `driver.Tx` as a wrapper can hold it: a transaction of the
backend, or a wrapper `tx` (a `*tx` is a `driver.Tx` too), given by the fields of that
wrapper. -/
inductive TxValue where
  | backend (t : DriverTx)
  | wrapper (tx : TxValue) (span : Option Span)
  deriving DecidableEq, Repr

/-- The wrapper `tx` of a `driver.Tx`: the wrapped transaction and the span opened by
`BeginTx`, `none` when there is none. (Declared outside the sources; the fields are those the
literals in `conn.go` set.) -/
structure tx where
  tx : TxValue
  span : Option Span
  deriving DecidableEq, Repr

/-- A wrapper `*tx` seen as a `driver.Tx`, which is how `conn.Begin` returns it. -/
def tx.toTxValue (t : Sql.tx) : TxValue :=
  .wrapper t.tx t.span

/-- The wrapper `stmt` of `sql/driver/stmt.go`; `opts` is a pointer and may be nil. -/
structure stmt where
  stmt : DriverStmt
  tracer : Tracer
  opts : Option options
  query : String

/-- The wrapper `conn`. `conn.go` declares the fields `conn`, `tracer` and `opts` (a pointer,
nil when not set), which are all its methods read; the literal in `swDriver.Open` of
`driver.go` sets `conn`, `tracer` and a field `addr`, which no method reads. -/
structure conn where
  conn : DriverConn
  tracer : Tracer
  opts : Option options
  addr : String

/-- The wrapper `swDriver` of `driver.go`. -/
structure swDriver where
  driver : Driver
  tracer : Tracer
  dbType : DBType

/-! ### `sql/driver.go` -/

/-- `NewTracerDriver` of `driver.go`. -/
def NewTracerDriver (driver : Driver) (tracer : Tracer) (dbType : DBType) : swDriver :=
  { driver := driver, tracer := tracer, dbType := dbType }

/-- `swDriver.Open` of `driver.go`. `parseAddr` is not in the sources and is a parameter. -/
def swDriver.Open (parseAddr : String → DBType → String) (d : swDriver) (name : String)
    (w : World) : Except GoError conn × World :=
  let addr := parseAddr name d.dbType
  match d.tracer.createExitSpan Context.Background (genOpName d.dbType "open") addr w with
  | (.error err, w1) => (.error err, w1)
  | (.ok s, w1) =>
    -- defer s.End()
    let w2 := w1.emit (.call (.driverOpen name))
    match d.driver.Open name with
    | .error err => (.error err, s.End w2)
    | .ok c => (.ok { conn := c, tracer := d.tracer, opts := none, addr := addr }, s.End w2)

/-! ### `sql/conn.go` -/

/-- `conn.Ping` of `conn.go`. -/
def conn.Ping (c : Sql.conn) (ctx : Context) (w : World) : Option GoError × World :=
  match c.conn.Pinger with
  | some pinger =>
    match createSpan ctx c.tracer c.opts "ping" w with
    | (.error err, w1) => (some err, w1)
    | (.ok span, w1) =>
      -- defer span.End()
      let w2 := w1.emit (.call (.ping ctx))
      (pinger ctx, span.End w2)
  | none => (some ErrUnsupportedOp, w)

/-- `conn.Prepare` of `conn.go`. -/
def conn.Prepare (c : Sql.conn) (query : String) (w : World) : Except GoError stmt × World :=
  let w1 := w.emit (.call (.prepare query))
  match c.conn.Prepare query with
  | .error err => (.error err, w1)
  | .ok st => (.ok { stmt := st, tracer := c.tracer, query := query, opts := c.opts }, w1)

/-- `conn.PrepareContext` of `conn.go`. -/
def conn.PrepareContext (c : Sql.conn) (ctx : Context) (query : String) (w : World) :
    Except GoError stmt × World :=
  match c.conn.ConnPrepareContext with
  | some connPrepareContext =>
    let w1 := w.emit (.call (.prepareContext ctx query))
    match connPrepareContext ctx query with
    | .error err => (.error err, w1)
    | .ok st => (.ok { stmt := st, tracer := c.tracer, query := query, opts := c.opts }, w1)
  | none => c.Prepare query w

/-- `conn.Close` of `conn.go`. -/
def conn.Close (c : Sql.conn) (w : World) : Option GoError × World :=
  (c.conn.Close, w.emit (.call .close))

/-- `conn.Begin` of `conn.go`. -/
def conn.Begin (c : Sql.conn) (w : World) : Except GoError tx × World :=
  let w1 := w.emit (.call .begin)
  match c.conn.Begin with
  | .error err => (.error err, w1)
  | .ok t => (.ok { tx := .backend t, span := none }, w1)

/-- `conn.BeginTx` of `conn.go`. -/
def conn.BeginTx (c : Sql.conn) (ctx : Context) (opts : TxOptions) (w : World) :
    Outcome (Except GoError tx) × World :=
  match createSpan ctx c.tracer c.opts "beginTransaction" w with
  | (.error err, w1) => (.ret (.error err), w1)
  | (.ok span, w1) =>
    match c.opts with
    | none => (.nilDeref, w1)
    | some o =>
      let w2 := span.Tag tagDbType o.dbType w1
      let w3 := span.Tag tagDbInstance o.peer w2
      match c.conn.ConnBeginTx with
      | some connBeginTx =>
        let w4 := w3.emit (.call (.beginTx ctx opts))
        match connBeginTx ctx opts with
        | .error err => (.ret (.error err), w4)
        | .ok t => (.ret (.ok { tx := .backend t, span := some span }), w4)
      | none =>
        match c.Begin w3 with
        | (.error err, w4) => (.ret (.error err), w4)
        | (.ok t, w4) => (.ret (.ok { tx := t.toTxValue, span := some span }), w4)

/-- `conn.Exec` of `conn.go`. -/
def conn.Exec (c : Sql.conn) (query : String) (args : List Value) (w : World) :
    (Option Result × Option GoError) × World :=
  match c.conn.Execer with
  | some execer => (execer query args, w.emit (.call (.exec query args)))
  | none => ((none, some ErrUnsupportedOp), w)

/-- `conn.ExecContext` of `conn.go`. -/
def conn.ExecContext (c : Sql.conn) (ctx : Context) (query : String) (args : List NamedValue)
    (w : World) : Outcome (Option Result × Option GoError) × World :=
  match createSpan ctx c.tracer c.opts "execute" w with
  | (.error err, w1) => (.ret (none, some err), w1)
  | (.ok span, w1) =>
    -- defer span.End()
    match c.opts with
    | none => (.nilDeref, span.End w1)
    | some o =>
      let w2 := span.Tag tagDbType o.dbType w1
      let w3 := span.Tag tagDbInstance o.peer w2
      let w4 := if o.reportQuery then span.Tag tagDbStatement query w3 else w3
      let w5 := if o.reportParam then
        span.Tag tagDbSqlParameters (namedValueToValueString args) w4 else w4
      match c.conn.ExecerContext with
      | some execerContext =>
        let w6 := w5.emit (.call (.execContext ctx query args))
        (.ret (execerContext ctx query args), span.End w6)
      | none =>
        match namedValueToValue args with
        | .error err => (.ret (none, some err), span.End w5)
        | .ok values =>
          match c.Exec query values w5 with
          | (r, w6) => (.ret r, span.End w6)

/-- `conn.Query` of `conn.go`. -/
def conn.Query (c : Sql.conn) (query : String) (args : List Value) (w : World) :
    (Option Rows × Option GoError) × World :=
  match c.conn.Queryer with
  | some queryer => (queryer query args, w.emit (.call (.query query args)))
  | none => ((none, some ErrUnsupportedOp), w)

/-- `conn.QueryContext` of `conn.go`. -/
def conn.QueryContext (c : Sql.conn) (ctx : Context) (query : String) (args : List NamedValue)
    (w : World) : Outcome (Option Rows × Option GoError) × World :=
  match createSpan ctx c.tracer c.opts "query" w with
  | (.error err, w1) => (.ret (none, some err), w1)
  | (.ok span, w1) =>
    -- defer span.End()
    match c.opts with
    | none => (.nilDeref, span.End w1)
    | some o =>
      let w2 := span.Tag tagDbType o.dbType w1
      let w3 := span.Tag tagDbInstance o.peer w2
      let w4 := if o.reportQuery then span.Tag tagDbStatement query w3 else w3
      let w5 := if o.reportParam then
        span.Tag tagDbSqlParameters (namedValueToValueString args) w4 else w4
      match c.conn.QueryerContext with
      | some queryerContext =>
        let w6 := w5.emit (.call (.queryContext ctx query args))
        (.ret (queryerContext ctx query args), span.End w6)
      | none =>
        match namedValueToValue args with
        | .error err => (.ret (none, some err), span.End w5)
        | .ok values =>
          match c.Query query values w5 with
          | (r, w6) => (.ret r, span.End w6)

/-! ### `sql/driver/stmt.go` -/

/-- `stmt.Close` of `stmt.go`. -/
def stmt.Close (s : Sql.stmt) (w : World) : Option GoError × World :=
  (s.stmt.Close, w.emit (.call .stmtClose))

/-- `stmt.NumInput` of `stmt.go`. -/
def stmt.NumInput (s : Sql.stmt) (w : World) : Int × World :=
  (s.stmt.NumInput, w.emit (.call .stmtNumInput))

/-- `stmt.Exec` of `stmt.go`. -/
def stmt.Exec (s : Sql.stmt) (args : List Value) (w : World) :
    (Option Result × Option GoError) × World :=
  (s.stmt.Exec args, w.emit (.call (.stmtExec args)))

/-- `stmt.ExecContext` of `stmt.go`. -/
def stmt.ExecContext (s : Sql.stmt) (ctx : Context) (args : List NamedValue) (w : World) :
    Outcome (Option Result × Option GoError) × World :=
  match createSpan ctx s.tracer s.opts "execute" w with
  | (.error err, w1) => (.ret (none, some err), w1)
  | (.ok span, w1) =>
    -- defer span.End()
    match s.opts with
    | none => (.nilDeref, span.End w1)
    | some o =>
      let w2 := span.Tag tagDbType o.dbType w1
      let w3 := span.Tag tagDbInstance o.peer w2
      let w4 := if o.reportQuery then span.Tag tagDbStatement s.query w3 else w3
      let w5 := if o.reportParam then
        span.Tag tagDbSqlParameters (namedValueToValueString args) w4 else w4
      match s.stmt.ExecContext with
      | some execerContext =>
        let w6 := w5.emit (.call (.stmtExecContext ctx args))
        let r := execerContext ctx args
        match r.2 with
        | some err => (.ret r, span.End (span.Error err.Error w6))
        | none => (.ret r, span.End w6)
      | none =>
        match namedValueToValue args with
        | .error err =>
          let w6 := span.Error err.Error w5
          let w7 := span.End w6
          (.ret (none, some err), span.End w7)
        | .ok values =>
          match s.Exec values w5 with
          | (r, w6) =>
            match r.2 with
            | some err => (.ret r, span.End (span.Error err.Error w6))
            | none => (.ret r, span.End w6)

/-- `stmt.Query` of `stmt.go`. -/
def stmt.Query (s : Sql.stmt) (args : List Value) (w : World) :
    (Option Rows × Option GoError) × World :=
  (s.stmt.Query args, w.emit (.call (.stmtQuery args)))

/-- `stmt.QueryContext` of `stmt.go`. -/
def stmt.QueryContext (s : Sql.stmt) (ctx : Context) (args : List NamedValue) (w : World) :
    Outcome (Option Rows × Option GoError) × World :=
  match createSpan ctx s.tracer s.opts "query" w with
  | (.error err, w1) => (.ret (none, some err), w1)
  | (.ok span, w1) =>
    -- defer span.End()
    match s.opts with
    | none => (.nilDeref, span.End w1)
    | some o =>
      let w2 := span.Tag tagDbType o.dbType w1
      let w3 := span.Tag tagDbInstance o.peer w2
      let w4 := if o.reportQuery then span.Tag tagDbStatement s.query w3 else w3
      let w5 := if o.reportParam then
        span.Tag tagDbSqlParameters (namedValueToValueString args) w4 else w4
      match s.stmt.QueryContext with
      | some queryer =>
        let w6 := w5.emit (.call (.stmtQueryContext ctx args))
        let r := queryer ctx args
        match r.2 with
        | some err => (.ret r, span.End (span.Error err.Error w6))
        | none => (.ret r, span.End w6)
      | none =>
        match namedValueToValue args with
        | .error err => (.ret (none, some err), span.End w5)
        | .ok values =>
          match s.Query values w5 with
          | (r, w6) =>
            match r.2 with
            | some err => (.ret r, span.End (span.Error err.Error w6))
            | none => (.ret r, span.End w6)

/-! ## Observations on the event log -/

/-- The backend calls of a log, in order. -/
def backendCalls (tr : List Event) : List Call :=
  tr.filterMap fun e => match e with
    | .call c => some c
    | _ => none

/-- The number of calls to the tracer for a span (`createSpan` or `CreateExitSpan`). -/
def tracerCalls (tr : List Event) : Nat :=
  tr.countP fun e => match e with
    | .createSpan _ _ _ => true
    | .createExitSpan _ _ _ _ => true
    | _ => false

/-- How many times `End` was called on span `s`. -/
def endCount (s : Span) (tr : List Event) : Nat :=
  tr.count (.spanEnd s)

/-- The values of the `db.statement` tags set on span `s`, in order. -/
def statementTags (s : Span) (tr : List Event) : List String :=
  tr.filterMap fun e => match e with
    | .tag s1 key value => if s1 = s ∧ key = tagDbStatement then some value else none
    | _ => none

/-- The messages of the `Error` records set on span `s`, in order. -/
def errorRecords (s : Span) (tr : List Event) : List String :=
  tr.filterMap fun e => match e with
    | .error s1 message => if s1 = s then some message else none
    | _ => none

/-- A call on a span, without the span operation name. -/
inductive SpanEvent where
  | tag (key value : String)
  | error (message : String)
  | spanEnd
  deriving DecidableEq, Repr

/-- The `Tag`, `Error` and `End` calls of a log, in order. -/
def spanEvents (tr : List Event) : List SpanEvent :=
  tr.filterMap fun e => match e with
    | .tag _ key value => some (.tag key value)
    | .error _ message => some (.error message)
    | .spanEnd _ => some .spanEnd
    | _ => none

/-! ## Sample backends

Concrete tracers, backends and wrappers at which the theorems below are instantiated. -/

/-- The error the sample backends fail with. -/
def backendError : GoError := ⟨"driver: bad connection"⟩

/-- The error the refusing tracer answers with. -/
def tracerError : GoError := ⟨"span context is not available"⟩

/-- A tracer that accepts every request. -/
def okTracer : Tracer :=
  { CreateLocalSpan := fun _ _ => none, CreateExitSpan := fun _ _ _ => none }

/-- A tracer that refuses every request with `tracerError`. -/
def refusingTracer : Tracer :=
  { CreateLocalSpan := fun _ _ => some tracerError,
    CreateExitSpan := fun _ _ _ => some tracerError }

/-- A configuration that reports the query text and not the parameters. -/
def sampleOpts : options :=
  { dbType := MYSQL, peer := "mysql:3306", reportQuery := true, reportParam := false }

/-- A configuration that reports neither the query text nor the parameters. -/
def quietOpts : options :=
  { dbType := IPV4, peer := "db:5432", reportQuery := false, reportParam := false }

/-- The empty world. -/
def World.init : World := { nextSpan := 0, trace := [] }

/-- A `(value, error)` answer: `v` when `err` is `none`, else the error alone. -/
def answer {α : Type} (v : α) (err : Option GoError) : Option α × Option GoError :=
  match err with
  | none => (some v, none)
  | some e => (none, some e)

/-- A handle answer: `v` when `err` is `none`, else the error. -/
def handle {α : Type} (v : α) (err : Option GoError) : Except GoError α :=
  match err with
  | none => .ok v
  | some e => .error e

/-- A backend transaction whose `Commit` and `Rollback` succeed. -/
def sampleTx : DriverTx := { Commit := none, Rollback := none }

/-- A backend statement with the legacy methods only; every call answers with `err`. -/
def legacyStmt (err : Option GoError) : DriverStmt :=
  { Close := none, NumInput := 1,
    Exec := fun _ => answer ⟨0, 1⟩ err,
    Query := fun _ => answer ⟨["name"], [[.str "foo"]]⟩ err,
    ExecContext := none, QueryContext := none }

/-- A backend statement that also implements `driver.StmtExecContext` and
`driver.StmtQueryContext`; every call answers with `err`. -/
def contextStmt (err : Option GoError) : DriverStmt :=
  { legacyStmt err with
    ExecContext := some fun _ _ => answer ⟨0, 1⟩ err,
    QueryContext := some fun _ _ => answer ⟨["name"], [[.str "foo"]]⟩ err }

/-- A backend connection with the legacy methods only (`driver.Execer`, `driver.Queryer`);
every call answers with `err`. -/
def legacyConn (err : Option GoError) : DriverConn :=
  { Prepare := fun _ => handle (legacyStmt err) err, Close := none,
    Begin := handle sampleTx err,
    Pinger := none, ConnPrepareContext := none, ConnBeginTx := none,
    Execer := some fun _ _ => answer ⟨0, 1⟩ err, ExecerContext := none,
    Queryer := some fun _ _ => answer ⟨["name"], [[.str "foo"]]⟩ err, QueryerContext := none }

/-- A backend connection that implements every optional interface; every call answers with
`err`. -/
def contextConn (err : Option GoError) : DriverConn :=
  { legacyConn err with
    Pinger := some fun _ => err,
    ConnPrepareContext := some fun _ _ => handle (contextStmt err) err,
    ConnBeginTx := some fun _ _ => handle sampleTx err,
    ExecerContext := some fun _ _ _ => answer ⟨0, 1⟩ err,
    QueryerContext := some fun _ _ _ => answer ⟨["name"], [[.str "foo"]]⟩ err }

/-- A connection wrapper around `b` with the sample configuration. -/
def wrapConn (b : DriverConn) (tracer : Tracer) : conn :=
  { conn := b, tracer := tracer, opts := some sampleOpts, addr := "mysql:3306" }

/-- A statement wrapper around `b` for the query `SELECT name FROM users WHERE id = ?`. -/
def wrapStmt (b : DriverStmt) (tracer : Tracer) : stmt :=
  { stmt := b, tracer := tracer, opts := some sampleOpts,
    query := "SELECT name FROM users WHERE id = ?" }

/-- A driver wrapper over a backend driver that opens `legacyConn err` or fails with `err`. -/
def sampleDriver (err : Option GoError) (tracer : Tracer) : swDriver :=
  NewTracerDriver { Open := fun _ => handle (legacyConn none) err } tracer MYSQL

/-- An address rule for the samples: the data source name itself. -/
def sampleParseAddr (name : String) (_dbType : DBType) : String :=
  name

/-! ## Facts about the helpers -/

theorem createSpan_error {ctx : Context} {tracer : Tracer} {opts : Option options}
    {operation : String} {w : World} {e : GoError}
    (h : (createSpan ctx tracer opts operation w).1 = .error e) :
    createSpan ctx tracer opts operation w = (.error e, w.emit (.createSpan ctx operation none)) := by
  unfold createSpan at h ⊢
  cases hc : tracer.CreateLocalSpan ctx operation with
  | none => simp [hc] at h
  | some err =>
    simp only [hc] at h ⊢
    cases h
    rfl

theorem createSpan_ok {ctx : Context} {tracer : Tracer} {opts : Option options}
    {operation : String} {w : World} {sp : Span}
    (h : (createSpan ctx tracer opts operation w).1 = .ok sp) :
    sp = ⟨w.nextSpan⟩ ∧ createSpan ctx tracer opts operation w =
      (.ok sp, { nextSpan := w.nextSpan + 1,
                 trace := w.trace ++ [.createSpan ctx operation (some sp)] }) := by
  unfold createSpan at h ⊢
  cases hc : tracer.CreateLocalSpan ctx operation with
  | some err => simp [hc] at h
  | none =>
    simp only [hc] at h ⊢
    cases h
    exact ⟨rfl, rfl⟩

theorem backendCalls_append (a b : List Event) :
    backendCalls (a ++ b) = backendCalls a ++ backendCalls b := by
  simp [backendCalls]

theorem endCount_End (sp : Span) (w : World) :
    endCount sp (sp.End w).trace = endCount sp w.trace + 1 := by
  simp [Span.End, World.emit, endCount]

theorem endCount_Tag (sp s1 : Span) (key value : String) (w : World) :
    endCount sp (s1.Tag key value w).trace = endCount sp w.trace := by
  simp [Span.Tag, World.emit, endCount]

theorem endCount_Error (sp s1 : Span) (message : String) (w : World) :
    endCount sp (s1.Error message w).trace = endCount sp w.trace := by
  simp [Span.Error, World.emit, endCount]

theorem endCount_call (sp : Span) (c : Call) (w : World) :
    endCount sp (w.emit (.call c)).trace = endCount sp w.trace := by
  simp [World.emit, endCount]

theorem endCount_createSpan (sp : Span) (ctx : Context) (op : String) (r : Option Span)
    (tr : List Event) :
    endCount sp (tr ++ [.createSpan ctx op r]) = endCount sp tr := by
  simp [endCount]

theorem endCount_createExitSpan (sp : Span) (ctx : Context) (op peer : String)
    (r : Option Span) (tr : List Event) :
    endCount sp (tr ++ [.createExitSpan ctx op peer r]) = endCount sp tr := by
  simp [endCount]

theorem spanEvents_emit (w : World) (e : Event) :
    spanEvents (w.emit e).trace = spanEvents w.trace ++ spanEvents [e] := by
  simp [World.emit, spanEvents]

/-- A statement wrapper returned by `conn.Prepare` or `conn.PrepareContext` carries the query
text it was prepared with and the configuration and tracer of the connection wrapper. -/
theorem prepared_stmt {c : conn} {s : stmt} {q : String} {ctx0 : Context} {w0 : World}
    (hs : (c.Prepare q w0).1 = .ok s ∨ (c.PrepareContext ctx0 q w0).1 = .ok s) :
    s.query = q ∧ s.opts = c.opts ∧ s.tracer = c.tracer := by
  have hp : ∀ w, (c.Prepare q w).1 = .ok s →
      s.query = q ∧ s.opts = c.opts ∧ s.tracer = c.tracer := by
    intro w h
    unfold conn.Prepare at h
    cases hb : c.conn.Prepare q with
    | error err => simp [hb] at h
    | ok st =>
      simp only [hb] at h
      cases h
      exact ⟨rfl, rfl, rfl⟩
  rcases hs with h | h
  · exact hp w0 h
  · unfold conn.PrepareContext at h
    cases hcap : c.conn.ConnPrepareContext with
    | none =>
      simp only [hcap] at h
      exact hp w0 h
    | some f =>
      simp only [hcap] at h
      cases hb : f ctx0 q with
      | error err => simp [hb] at h
      | ok st =>
        simp only [hb] at h
        cases h
        exact ⟨rfl, rfl, rfl⟩

/-! ## C1: a failed span creation aborts the operation -/

/-- C1: when `createSpan` returns an error `e` inside `conn.Ping` (backend implements
`driver.Pinger`), `conn.ExecContext`, `conn.QueryContext`, `stmt.ExecContext` or
`stmt.QueryContext`, the operation returns exactly `e` (with a nil result for the execute and
query operations) and makes no call on the wrapped backend. -/
theorem span_creation_failure_aborts (c : conn) (s : stmt) (ctx : Context) (query : String)
    (args : List NamedValue) (w : World) (e : GoError) :
    (∀ pinger, c.conn.Pinger = some pinger →
      (createSpan ctx c.tracer c.opts "ping" w).1 = .error e →
        (c.Ping ctx w).1 = some e ∧
        backendCalls (c.Ping ctx w).2.trace = backendCalls w.trace) ∧
    ((createSpan ctx c.tracer c.opts "execute" w).1 = .error e →
        (c.ExecContext ctx query args w).1 = .ret (none, some e) ∧
        backendCalls (c.ExecContext ctx query args w).2.trace = backendCalls w.trace) ∧
    ((createSpan ctx c.tracer c.opts "query" w).1 = .error e →
        (c.QueryContext ctx query args w).1 = .ret (none, some e) ∧
        backendCalls (c.QueryContext ctx query args w).2.trace = backendCalls w.trace) ∧
    ((createSpan ctx s.tracer s.opts "execute" w).1 = .error e →
        (s.ExecContext ctx args w).1 = .ret (none, some e) ∧
        backendCalls (s.ExecContext ctx args w).2.trace = backendCalls w.trace) ∧
    ((createSpan ctx s.tracer s.opts "query" w).1 = .error e →
        (s.QueryContext ctx args w).1 = .ret (none, some e) ∧
        backendCalls (s.QueryContext ctx args w).2.trace = backendCalls w.trace) := by
  refine ⟨?_, ?_, ?_, ?_, ?_⟩
  · intro pinger hp h
    simp [conn.Ping, hp, createSpan_error h, World.emit, backendCalls_append, backendCalls]
  · intro h
    simp [conn.ExecContext, createSpan_error h, World.emit, backendCalls_append, backendCalls]
  · intro h
    simp [conn.QueryContext, createSpan_error h, World.emit, backendCalls_append, backendCalls]
  · intro h
    simp [stmt.ExecContext, createSpan_error h, World.emit, backendCalls_append, backendCalls]
  · intro h
    simp [stmt.QueryContext, createSpan_error h, World.emit, backendCalls_append, backendCalls]

/-- C1 at a backend with every capability behind a tracer that refuses every span: each of the
five operations returns the tracer's error and the backend sees no call. -/
theorem span_creation_failure_aborts_witness :
    ((wrapConn (contextConn none) refusingTracer).Ping ⟨1⟩ World.init).1 = some tracerError ∧
    backendCalls ((wrapConn (contextConn none) refusingTracer).Ping ⟨1⟩ World.init).2.trace = [] ∧
    ((wrapConn (contextConn none) refusingTracer).ExecContext ⟨1⟩ "DROP TABLE IF EXISTS users" []
      World.init).1 = .ret (none, some tracerError) ∧
    ((wrapConn (contextConn none) refusingTracer).QueryContext ⟨1⟩ "SELECT 1" []
      World.init).1 = .ret (none, some tracerError) ∧
    ((wrapStmt (contextStmt none) refusingTracer).ExecContext ⟨1⟩ [⟨"", 1, .int 7⟩]
      World.init).1 = .ret (none, some tracerError) ∧
    ((wrapStmt (contextStmt none) refusingTracer).QueryContext ⟨1⟩ [⟨"", 1, .int 7⟩]
      World.init).1 = .ret (none, some tracerError) :=
  have h := span_creation_failure_aborts (wrapConn (contextConn none) refusingTracer)
    (wrapStmt (contextStmt none) refusingTracer) ⟨1⟩ "DROP TABLE IF EXISTS users" []
    World.init tracerError
  have h2 := span_creation_failure_aborts (wrapConn (contextConn none) refusingTracer)
    (wrapStmt (contextStmt none) refusingTracer) ⟨1⟩ "SELECT 1" [⟨"", 1, .int 7⟩]
    World.init tracerError
  ⟨(h.1 _ rfl rfl).1, (h.1 _ rfl rfl).2, (h.2.1 rfl).1, (h2.2.2.1 rfl).1,
    (h2.2.2.2.1 rfl).1, (h2.2.2.2.2 rfl).1⟩

/-! ## C2: the legacy fallback gives the result of the legacy entry point -/

/-- C2: for a backend without `driver.ExecerContext` / `driver.QueryerContext` (for a
statement: without `driver.StmtExecContext` / `driver.StmtQueryContext`), when the span is
created and `namedValueToValue args` succeeds with `values`, `ExecContext` returns the very
`(result, error)` pair that `Exec` returns on `values`, and `QueryContext` the pair `Query`
returns, and the backend sees the same calls as it does from the legacy entry point. -/
theorem legacy_fallback_refines (c : conn) (s : stmt) (ctx : Context) (query : String)
    (args : List NamedValue) (values : List Value) (w w1 : World)
    (hargs : namedValueToValue args = .ok values) :
    (∀ o sp, c.opts = some o → c.conn.ExecerContext = none →
      (createSpan ctx c.tracer c.opts "execute" w).1 = .ok sp →
        (c.ExecContext ctx query args w).1 = .ret (c.Exec query values w1).1 ∧
        backendCalls (c.ExecContext ctx query args w).2.trace =
          backendCalls (c.Exec query values w).2.trace) ∧
    (∀ o sp, c.opts = some o → c.conn.QueryerContext = none →
      (createSpan ctx c.tracer c.opts "query" w).1 = .ok sp →
        (c.QueryContext ctx query args w).1 = .ret (c.Query query values w1).1 ∧
        backendCalls (c.QueryContext ctx query args w).2.trace =
          backendCalls (c.Query query values w).2.trace) ∧
    (∀ o sp, s.opts = some o → s.stmt.ExecContext = none →
      (createSpan ctx s.tracer s.opts "execute" w).1 = .ok sp →
        (s.ExecContext ctx args w).1 = .ret (s.Exec values w1).1 ∧
        backendCalls (s.ExecContext ctx args w).2.trace =
          backendCalls (s.Exec values w).2.trace) ∧
    (∀ o sp, s.opts = some o → s.stmt.QueryContext = none →
      (createSpan ctx s.tracer s.opts "query" w).1 = .ok sp →
        (s.QueryContext ctx args w).1 = .ret (s.Query values w1).1 ∧
        backendCalls (s.QueryContext ctx args w).2.trace =
          backendCalls (s.Query values w).2.trace) := by
  obtain ⟨n, tr⟩ := w
  refine ⟨?_, ?_, ?_, ?_⟩
  · intro o sp ho hcap h
    obtain ⟨dbType, peer, rq, rp⟩ := o
    rw [ho] at h
    simp only [conn.ExecContext, ho, (createSpan_ok h).2, hcap, hargs, conn.Exec]
    cases c.conn.Execer <;> cases rq <;> cases rp <;>
      simp [World.emit, Span.Tag, Span.End, backendCalls]
  · intro o sp ho hcap h
    obtain ⟨dbType, peer, rq, rp⟩ := o
    rw [ho] at h
    simp only [conn.QueryContext, ho, (createSpan_ok h).2, hcap, hargs, conn.Query]
    cases c.conn.Queryer <;> cases rq <;> cases rp <;>
      simp [World.emit, Span.Tag, Span.End, backendCalls]
  · intro o sp ho hcap h
    obtain ⟨dbType, peer, rq, rp⟩ := o
    rw [ho] at h
    simp only [stmt.ExecContext, ho, (createSpan_ok h).2, hcap, hargs, stmt.Exec]
    cases (s.stmt.Exec values).2 <;> cases rq <;> cases rp <;>
      simp [World.emit, Span.Tag, Span.End, Span.Error, backendCalls]
  · intro o sp ho hcap h
    obtain ⟨dbType, peer, rq, rp⟩ := o
    rw [ho] at h
    simp only [stmt.QueryContext, ho, (createSpan_ok h).2, hcap, hargs, stmt.Query]
    cases (s.stmt.Query values).2 <;> cases rq <;> cases rp <;>
      simp [World.emit, Span.Tag, Span.End, Span.Error, backendCalls]

/-- C2 at the scenario of the specification: a backend with the legacy `Exec` only,
`ExecContext(ctx, "INSERT ...", [(Name: "", Value: 1)])`. The arguments convert to `[1]`, the
result is that of `Exec("INSERT ...", [1])` and the one backend call is that legacy `Exec`. -/
theorem legacy_fallback_refines_witness :
    namedValueToValue [⟨"", 1, .int 1⟩] = .ok [.int 1] ∧
    ((wrapConn (legacyConn none) okTracer).ExecContext ⟨1⟩ "INSERT ..." [⟨"", 1, .int 1⟩]
      World.init).1 =
      .ret ((wrapConn (legacyConn none) okTracer).Exec "INSERT ..." [.int 1] World.init).1 ∧
    backendCalls ((wrapConn (legacyConn none) okTracer).ExecContext ⟨1⟩ "INSERT ..."
      [⟨"", 1, .int 1⟩] World.init).2.trace = [.exec "INSERT ..." [.int 1]] ∧
    ((wrapStmt (legacyStmt none) okTracer).QueryContext ⟨1⟩ [⟨"", 1, .int 1⟩] World.init).1 =
      .ret ((wrapStmt (legacyStmt none) okTracer).Query [.int 1] World.init).1 :=
  have h := legacy_fallback_refines (wrapConn (legacyConn none) okTracer)
    (wrapStmt (legacyStmt none) okTracer) ⟨1⟩ "INSERT ..." [⟨"", 1, .int 1⟩] [.int 1]
    World.init World.init rfl
  ⟨rfl, (h.1 sampleOpts ⟨0⟩ rfl rfl rfl).1,
    (h.1 sampleOpts ⟨0⟩ rfl rfl rfl).2.trans rfl,
    (h.2.2.2 sampleOpts ⟨0⟩ rfl rfl rfl).1⟩

/-! ## C3: how often a span is ended -/

/-- C3 fails in `stmt.ExecContext` when the conversion of the arguments fails: the backend
statement has the legacy methods only, the argument carries the name `id`, and the log of the
call shows `End` twice on the span, once from the conversion-failure branch and once from the
deferred call. -/
theorem stmt_execContext_conversion_failure_ends_span_twice :
    (wrapStmt (legacyStmt none) okTracer).ExecContext ⟨1⟩ [⟨"id", 1, .int 7⟩] World.init =
      (.ret (none, some ErrNamedParameters),
       { nextSpan := 1,
         trace := [.createSpan ⟨1⟩ "execute" (some ⟨0⟩), .tag ⟨0⟩ "db.type" "mysql",
           .tag ⟨0⟩ "db.instance" "mysql:3306",
           .tag ⟨0⟩ "db.statement" "SELECT name FROM users WHERE id = ?",
           .error ⟨0⟩ "sql: driver does not support the use of Named Parameters",
           .spanEnd ⟨0⟩, .spanEnd ⟨0⟩] }) ∧
    endCount ⟨0⟩ ((wrapStmt (legacyStmt none) okTracer).ExecContext ⟨1⟩ [⟨"id", 1, .int 7⟩]
      World.init).2.trace = 2 := by
  decide

/-- On every other exit path the created span is ended once: `swDriver.Open`, `conn.Ping`,
`conn.ExecContext`, `conn.QueryContext` and `stmt.QueryContext` add one `End` on their span
whatever the backend answers, and so does `stmt.ExecContext` when the backend statement
implements `driver.StmtExecContext` or the conversion succeeds; when it does not and the
conversion fails, `stmt.ExecContext` adds two. -/
theorem span_end_counts (parseAddr : String → DBType → String) (d : swDriver) (c : conn)
    (s : stmt) (o : options) (ctx : Context) (name query : String) (args : List NamedValue)
    (w : World) (hc : c.opts = some o) (hs : s.opts = some o) :
    (∀ sp, (d.tracer.createExitSpan Context.Background (genOpName d.dbType "open")
        (parseAddr name d.dbType) w).1 = .ok sp →
      endCount sp (d.Open parseAddr name w).2.trace = endCount sp w.trace + 1) ∧
    (∀ pinger sp, c.conn.Pinger = some pinger →
      (createSpan ctx c.tracer c.opts "ping" w).1 = .ok sp →
        endCount sp (c.Ping ctx w).2.trace = endCount sp w.trace + 1) ∧
    (∀ sp, (createSpan ctx c.tracer c.opts "execute" w).1 = .ok sp →
      endCount sp (c.ExecContext ctx query args w).2.trace = endCount sp w.trace + 1) ∧
    (∀ sp, (createSpan ctx c.tracer c.opts "query" w).1 = .ok sp →
      endCount sp (c.QueryContext ctx query args w).2.trace = endCount sp w.trace + 1) ∧
    (∀ sp, (createSpan ctx s.tracer s.opts "query" w).1 = .ok sp →
      endCount sp (s.QueryContext ctx args w).2.trace = endCount sp w.trace + 1) ∧
    (∀ sp, (createSpan ctx s.tracer s.opts "execute" w).1 = .ok sp →
      ((s.stmt.ExecContext.isSome ∨ ∃ values, namedValueToValue args = .ok values) →
        endCount sp (s.ExecContext ctx args w).2.trace = endCount sp w.trace + 1) ∧
      (s.stmt.ExecContext = none → ∀ err, namedValueToValue args = .error err →
        endCount sp (s.ExecContext ctx args w).2.trace = endCount sp w.trace + 2)) := by
  obtain ⟨dbType, peer, rq, rp⟩ := o
  obtain ⟨n, tr⟩ := w
  refine ⟨?_, ?_, ?_, ?_, ?_, ?_⟩
  · intro sp h
    unfold Tracer.createExitSpan at h
    unfold swDriver.Open Tracer.createExitSpan
    cases ht : d.tracer.CreateExitSpan Context.Background (genOpName d.dbType "open")
        (parseAddr name d.dbType) with
    | some err => simp [ht] at h
    | none =>
      simp only [ht] at h
      cases h
      cases hb : d.driver.Open name <;>
        simp only [ht, endCount_End, endCount_call, endCount_createExitSpan]
  · intro pinger sp hp h
    obtain ⟨rfl, h⟩ := createSpan_ok h
    simp only [conn.Ping, hp, h, endCount_End, endCount_call, endCount_createSpan]
  · intro sp h
    obtain ⟨rfl, h⟩ := createSpan_ok h
    unfold conn.ExecContext conn.Exec
    rw [h, hc]
    cases c.conn.ExecerContext <;> cases namedValueToValue args <;> cases c.conn.Execer <;>
      cases rq <;> cases rp <;>
      simp only [Bool.false_eq_true, if_true, if_false, endCount_End, endCount_Tag,
        endCount_call, endCount_createSpan]
  · intro sp h
    obtain ⟨rfl, h⟩ := createSpan_ok h
    unfold conn.QueryContext conn.Query
    rw [h, hc]
    cases c.conn.QueryerContext <;> cases namedValueToValue args <;> cases c.conn.Queryer <;>
      cases rq <;> cases rp <;>
      simp only [Bool.false_eq_true, if_true, if_false, endCount_End, endCount_Tag,
        endCount_call, endCount_createSpan]
  · intro sp h
    obtain ⟨rfl, h⟩ := createSpan_ok h
    unfold stmt.QueryContext stmt.Query
    rw [h, hs]
    cases hcap : s.stmt.QueryContext with
    | some f =>
      cases hr : (f ctx args).2 <;> cases rq <;> cases rp <;>
        simp only [hr, Bool.false_eq_true, if_true, if_false, endCount_End, endCount_Tag,
          endCount_Error, endCount_call, endCount_createSpan]
    | none =>
      cases hconv : namedValueToValue args with
      | error err =>
        cases rq <;> cases rp <;>
          simp only [Bool.false_eq_true, if_true, if_false, endCount_End, endCount_Tag,
            endCount_Error, endCount_call, endCount_createSpan]
      | ok values =>
        cases hr : (s.stmt.Query values).2 <;> cases rq <;> cases rp <;>
          simp only [hr, Bool.false_eq_true, if_true, if_false, endCount_End, endCount_Tag,
            endCount_Error, endCount_call, endCount_createSpan]
  · intro sp h
    obtain ⟨rfl, h⟩ := createSpan_ok h
    unfold stmt.ExecContext stmt.Exec
    rw [h, hs]
    cases hcap : s.stmt.ExecContext with
    | some f =>
      refine ⟨fun _ => ?_, fun h0 => by cases h0⟩
      cases hr : (f ctx args).2 <;> cases rq <;> cases rp <;>
        simp only [hr, Bool.false_eq_true, if_true, if_false, endCount_End, endCount_Tag,
          endCount_Error, endCount_call, endCount_createSpan]
    | none =>
      cases hconv : namedValueToValue args with
      | error err =>
        refine ⟨fun h0 => ?_, fun _ _ _ => ?_⟩
        · rcases h0 with h0 | ⟨values, h0⟩
          · cases h0
          · cases h0
        · cases rq <;> cases rp <;>
            simp only [Bool.false_eq_true, if_true, if_false, endCount_End, endCount_Tag,
              endCount_Error, endCount_call, endCount_createSpan]
      | ok values =>
        refine ⟨fun _ => ?_, fun _ err h0 => by cases h0⟩
        cases hr : (s.stmt.Exec values).2 <;> cases rq <;> cases rp <;>
          simp only [hr, Bool.false_eq_true, if_true, if_false, endCount_End, endCount_Tag,
            endCount_Error, endCount_call, endCount_createSpan]

/-! ## C4: `BeginTx` when the begin fails -/

/-- C4 fails in its last part: when the backend `BeginTx` fails, and when the legacy `Begin`
fallback fails, `conn.BeginTx` returns the backend error with no wrapper, and the log of the
call holds the span creation, the two tags and the backend call: `End` is not called on the
span. -/
theorem beginTx_failure_leaves_span_open :
    (wrapConn (contextConn (some backendError)) okTracer).BeginTx ⟨1⟩ ⟨0, false⟩ World.init =
      (.ret (.error backendError),
       { nextSpan := 1,
         trace := [.createSpan ⟨1⟩ "beginTransaction" (some ⟨0⟩), .tag ⟨0⟩ "db.type" "mysql",
           .tag ⟨0⟩ "db.instance" "mysql:3306", .call (.beginTx ⟨1⟩ ⟨0, false⟩)] }) ∧
    endCount ⟨0⟩ ((wrapConn (contextConn (some backendError)) okTracer).BeginTx ⟨1⟩ ⟨0, false⟩
      World.init).2.trace = 0 ∧
    (wrapConn (legacyConn (some backendError)) okTracer).BeginTx ⟨1⟩ ⟨0, false⟩ World.init =
      (.ret (.error backendError),
       { nextSpan := 1,
         trace := [.createSpan ⟨1⟩ "beginTransaction" (some ⟨0⟩), .tag ⟨0⟩ "db.type" "mysql",
           .tag ⟨0⟩ "db.instance" "mysql:3306", .call .begin] }) ∧
    endCount ⟨0⟩ ((wrapConn (legacyConn (some backendError)) okTracer).BeginTx ⟨1⟩ ⟨0, false⟩
      World.init).2.trace = 0 :=
  ⟨rfl, rfl, rfl, rfl⟩

/-! ## C5: the `db.statement` tag follows `reportQuery` -/

/-- C5: for every connection wrapper `c` with configuration `o` and every statement wrapper
`s` with configuration `o`: when `o.reportQuery` is false, none of `conn.ExecContext`,
`conn.QueryContext`, `stmt.ExecContext`, `stmt.QueryContext` sets a `db.statement` tag on any
span; when it is true, the span the operation created receives one `db.statement` tag, whose
value is the query argument `q` for the connection operations and the stored text `s.query`
for the statement operations. A statement wrapper returned by `conn.Prepare(q)` or
`conn.PrepareContext(ctx0, q)` stores exactly `q` and has the configuration of `c`. -/
theorem statement_tag_follows_reportQuery (c : conn) (s : stmt) (o : options)
    (ctx : Context) (q : String) (args : List NamedValue) (w : World) :
    (c.opts = some o →
      (o.reportQuery = false → ∀ sp,
        statementTags sp (c.ExecContext ctx q args w).2.trace = statementTags sp w.trace ∧
        statementTags sp (c.QueryContext ctx q args w).2.trace = statementTags sp w.trace) ∧
      (o.reportQuery = true →
        (∀ sp, (createSpan ctx c.tracer c.opts "execute" w).1 = .ok sp →
          statementTags sp (c.ExecContext ctx q args w).2.trace =
            statementTags sp w.trace ++ [q]) ∧
        (∀ sp, (createSpan ctx c.tracer c.opts "query" w).1 = .ok sp →
          statementTags sp (c.QueryContext ctx q args w).2.trace =
            statementTags sp w.trace ++ [q])) ∧
      (∀ s1 ctx0 w0, ((c.Prepare q w0).1 = .ok s1 ∨ (c.PrepareContext ctx0 q w0).1 = .ok s1) →
        s1.query = q ∧ s1.opts = some o)) ∧
    (s.opts = some o →
      (o.reportQuery = false → ∀ sp,
        statementTags sp (s.ExecContext ctx args w).2.trace = statementTags sp w.trace ∧
        statementTags sp (s.QueryContext ctx args w).2.trace = statementTags sp w.trace) ∧
      (o.reportQuery = true →
        (∀ sp, (createSpan ctx s.tracer s.opts "execute" w).1 = .ok sp →
          statementTags sp (s.ExecContext ctx args w).2.trace =
            statementTags sp w.trace ++ [s.query]) ∧
        (∀ sp, (createSpan ctx s.tracer s.opts "query" w).1 = .ok sp →
          statementTags sp (s.QueryContext ctx args w).2.trace =
            statementTags sp w.trace ++ [s.query]))) := by
  have k1 : tagDbType ≠ tagDbStatement := by decide
  have k2 : tagDbInstance ≠ tagDbStatement := by decide
  have k3 : tagDbSqlParameters ≠ tagDbStatement := by decide
  obtain ⟨dbType, peer, rq, rp⟩ := o
  refine ⟨fun hc => ⟨?_, ?_, ?_⟩, fun hso => ⟨?_, ?_⟩⟩
  · intro hr sp
    simp only at hr
    subst hr
    refine ⟨?_, ?_⟩
    · unfold conn.ExecContext createSpan conn.Exec
      rw [hc]
      cases c.tracer.CreateLocalSpan ctx "execute" <;> cases c.conn.ExecerContext <;>
        cases namedValueToValue args <;> cases c.conn.Execer <;> cases rp <;>
        simp [World.emit, Span.Tag, Span.End, statementTags, k1, k2, k3]
    · unfold conn.QueryContext createSpan conn.Query
      rw [hc]
      cases c.tracer.CreateLocalSpan ctx "query" <;> cases c.conn.QueryerContext <;>
        cases namedValueToValue args <;> cases c.conn.Queryer <;> cases rp <;>
        simp [World.emit, Span.Tag, Span.End, statementTags, k1, k2, k3]
  · intro hr
    simp only at hr
    subst hr
    refine ⟨?_, ?_⟩
    · intro sp h
      obtain ⟨hsp, h⟩ := createSpan_ok h
      unfold conn.ExecContext conn.Exec
      rw [h, hc, hsp]
      cases c.conn.ExecerContext <;>
        cases namedValueToValue args <;> cases c.conn.Execer <;> cases rp <;>
        simp [World.emit, Span.Tag, Span.End, statementTags, k1, k2, k3]
    · intro sp h
      obtain ⟨hsp, h⟩ := createSpan_ok h
      unfold conn.QueryContext conn.Query
      rw [h, hc, hsp]
      cases c.conn.QueryerContext <;>
        cases namedValueToValue args <;> cases c.conn.Queryer <;> cases rp <;>
        simp [World.emit, Span.Tag, Span.End, statementTags, k1, k2, k3]
  · intro s1 ctx0 w0 hs
    obtain ⟨hq, ho, -⟩ := prepared_stmt hs
    exact ⟨hq, ho.trans hc⟩
  · intro hr sp
    simp only at hr
    subst hr
    refine ⟨?_, ?_⟩
    · unfold stmt.ExecContext createSpan stmt.Exec
      rw [hso]
      cases s.tracer.CreateLocalSpan ctx "execute" <;> cases s.stmt.ExecContext <;>
        cases namedValueToValue args <;> cases rp <;>
        simp [World.emit, Span.Tag, Span.End, Span.Error, statementTags, k1, k2, k3] <;>
        split <;> simp [World.emit, Span.Tag, Span.End, Span.Error, statementTags, k1, k2, k3]
    · unfold stmt.QueryContext createSpan stmt.Query
      rw [hso]
      cases s.tracer.CreateLocalSpan ctx "query" <;> cases s.stmt.QueryContext <;>
        cases namedValueToValue args <;> cases rp <;>
        simp [World.emit, Span.Tag, Span.End, Span.Error, statementTags, k1, k2, k3] <;>
        split <;> simp [World.emit, Span.Tag, Span.End, Span.Error, statementTags, k1, k2, k3]
  · intro hr
    simp only at hr
    subst hr
    refine ⟨?_, ?_⟩
    · intro sp h
      obtain ⟨hsp, h⟩ := createSpan_ok h
      unfold stmt.ExecContext stmt.Exec
      rw [h, hso, hsp]
      cases s.stmt.ExecContext <;>
        cases namedValueToValue args <;> cases rp <;>
        simp [World.emit, Span.Tag, Span.End, Span.Error, statementTags, k1, k2, k3] <;>
        split <;> simp [World.emit, Span.Tag, Span.End, Span.Error, statementTags, k1, k2, k3]
    · intro sp h
      obtain ⟨hsp, h⟩ := createSpan_ok h
      unfold stmt.QueryContext stmt.Query
      rw [h, hso, hsp]
      cases s.stmt.QueryContext <;>
        cases namedValueToValue args <;> cases rp <;>
        simp [World.emit, Span.Tag, Span.End, Span.Error, statementTags, k1, k2, k3] <;>
        split <;> simp [World.emit, Span.Tag, Span.End, Span.Error, statementTags, k1, k2, k3]

/-- C5 at a connection that cannot prepare and whose configuration reports the query (the
execute span carries the query argument), at a statement prepared on a connection with that
configuration (it stores the prepared text and its execute span carries it), and at a
connection and a statement whose configuration does not report the query (their spans carry
no `db.statement` tag). -/
theorem statement_tag_follows_reportQuery_witness :
    statementTags ⟨0⟩ ((wrapConn (contextConn (some backendError)) okTracer).ExecContext ⟨1⟩
      "DROP TABLE IF EXISTS users" [] World.init).2.trace = ["DROP TABLE IF EXISTS users"] ∧
    ((wrapConn (legacyConn none) okTracer).Prepare "SELECT name FROM users WHERE id = ?"
      World.init).1 = .ok (wrapStmt (legacyStmt none) okTracer) ∧
    (wrapStmt (legacyStmt none) okTracer).query = "SELECT name FROM users WHERE id = ?" ∧
    statementTags ⟨0⟩ ((wrapStmt (legacyStmt none) okTracer).ExecContext ⟨1⟩
      [⟨"", 1, .str "0"⟩] World.init).2.trace =
      ["SELECT name FROM users WHERE id = ?"] ∧
    statementTags ⟨0⟩ (conn.QueryContext
      { wrapConn (contextConn none) okTracer with opts := some quietOpts } ⟨1⟩ "SELECT 1" []
      World.init).2.trace = [] ∧
    statementTags ⟨0⟩ (stmt.ExecContext
      { wrapStmt (contextStmt none) okTracer with opts := some quietOpts } ⟨1⟩ []
      World.init).2.trace = [] :=
  have h1 := (statement_tag_follows_reportQuery
    (wrapConn (contextConn (some backendError)) okTracer) (wrapStmt (legacyStmt none) okTracer)
    sampleOpts ⟨1⟩ "DROP TABLE IF EXISTS users" [] World.init).1 rfl
  have h2 := statement_tag_follows_reportQuery (wrapConn (legacyConn none) okTracer)
    (wrapStmt (legacyStmt none) okTracer) sampleOpts ⟨1⟩
    "SELECT name FROM users WHERE id = ?" [⟨"", 1, .str "0"⟩] World.init
  have h3 := statement_tag_follows_reportQuery
    { wrapConn (contextConn none) okTracer with opts := some quietOpts }
    { wrapStmt (contextStmt none) okTracer with opts := some quietOpts }
    quietOpts ⟨1⟩ "SELECT 1" [] World.init
  ⟨(h1.2.1 rfl).1 ⟨0⟩ rfl, rfl,
    ((h2.1 rfl).2.2 (wrapStmt (legacyStmt none) okTracer) ⟨1⟩ World.init (Or.inl rfl)).1,
    ((h2.2 rfl).2 rfl).1 ⟨0⟩ rfl,
    (((h3.1 rfl).1 rfl) ⟨0⟩).2.trans rfl,
    (((h3.2 rfl).1 rfl) ⟨0⟩).1.trans rfl⟩

/-! ## C6: what happens to an error of the backend -/

/-- C6 fails for the connection operations: the backend `ExecContext` fails with
`backendError`, `conn.ExecContext` returns that error, and the log of the call holds the span
creation, the tags, the backend call and `End`, with no `Error` record on the span. -/
theorem conn_execContext_records_no_error :
    (wrapConn (contextConn (some backendError)) okTracer).ExecContext ⟨1⟩
      "DROP TABLE IF EXISTS users" [] World.init =
      (.ret (none, some backendError),
       { nextSpan := 1,
         trace := [.createSpan ⟨1⟩ "execute" (some ⟨0⟩), .tag ⟨0⟩ "db.type" "mysql",
           .tag ⟨0⟩ "db.instance" "mysql:3306",
           .tag ⟨0⟩ "db.statement" "DROP TABLE IF EXISTS users",
           .call (.execContext ⟨1⟩ "DROP TABLE IF EXISTS users" []), .spanEnd ⟨0⟩] }) ∧
    errorRecords ⟨0⟩ ((wrapConn (contextConn (some backendError)) okTracer).ExecContext ⟨1⟩
      "DROP TABLE IF EXISTS users" [] World.init).2.trace = [] := by
  decide

/-- C6 as amended: for wrappers with a configuration, when the span `sp` is created and the
wrapped backend call (context-aware delegate, or legacy fallback after a successful
conversion) returns `(r, e)` with the error `e`: each of `conn.Ping`, `conn.ExecContext`,
`conn.QueryContext`, `stmt.ExecContext`, `stmt.QueryContext` returns `(r, e)` unmodified; the
two statement operations end their log with the `Error` record of `e.Error` on `sp`
followed by `End` on `sp`; the three connection operations add no `Error` record to `sp`. -/
theorem backend_error_returned_unmodified (c : conn) (s : stmt) (o : options) (ctx : Context)
    (query : String) (args : List NamedValue) (w : World) (e : GoError)
    (hc : c.opts = some o) (hs : s.opts = some o) :
    (∀ pinger sp, c.conn.Pinger = some pinger →
      (createSpan ctx c.tracer c.opts "ping" w).1 = .ok sp → pinger ctx = some e →
        (c.Ping ctx w).1 = some e ∧
        errorRecords sp (c.Ping ctx w).2.trace = errorRecords sp w.trace) ∧
    (∀ f sp r, c.conn.ExecerContext = some f →
      (createSpan ctx c.tracer c.opts "execute" w).1 = .ok sp → f ctx query args = (r, some e) →
        (c.ExecContext ctx query args w).1 = .ret (r, some e) ∧
        errorRecords sp (c.ExecContext ctx query args w).2.trace = errorRecords sp w.trace) ∧
    (∀ g sp r values, c.conn.ExecerContext = none → namedValueToValue args = .ok values →
      c.conn.Execer = some g →
      (createSpan ctx c.tracer c.opts "execute" w).1 = .ok sp → g query values = (r, some e) →
        (c.ExecContext ctx query args w).1 = .ret (r, some e) ∧
        errorRecords sp (c.ExecContext ctx query args w).2.trace = errorRecords sp w.trace) ∧
    (∀ f sp r, c.conn.QueryerContext = some f →
      (createSpan ctx c.tracer c.opts "query" w).1 = .ok sp → f ctx query args = (r, some e) →
        (c.QueryContext ctx query args w).1 = .ret (r, some e) ∧
        errorRecords sp (c.QueryContext ctx query args w).2.trace = errorRecords sp w.trace) ∧
    (∀ g sp r values, c.conn.QueryerContext = none → namedValueToValue args = .ok values →
      c.conn.Queryer = some g →
      (createSpan ctx c.tracer c.opts "query" w).1 = .ok sp → g query values = (r, some e) →
        (c.QueryContext ctx query args w).1 = .ret (r, some e) ∧
        errorRecords sp (c.QueryContext ctx query args w).2.trace = errorRecords sp w.trace) ∧
    (∀ f sp r, s.stmt.ExecContext = some f →
      (createSpan ctx s.tracer s.opts "execute" w).1 = .ok sp → f ctx args = (r, some e) →
        (s.ExecContext ctx args w).1 = .ret (r, some e) ∧
        ∃ pre, (s.ExecContext ctx args w).2.trace = pre ++ [.error sp e.Error, .spanEnd sp]) ∧
    (∀ sp r values, s.stmt.ExecContext = none → namedValueToValue args = .ok values →
      (createSpan ctx s.tracer s.opts "execute" w).1 = .ok sp → s.stmt.Exec values = (r, some e) →
        (s.ExecContext ctx args w).1 = .ret (r, some e) ∧
        ∃ pre, (s.ExecContext ctx args w).2.trace = pre ++ [.error sp e.Error, .spanEnd sp]) ∧
    (∀ f sp r, s.stmt.QueryContext = some f →
      (createSpan ctx s.tracer s.opts "query" w).1 = .ok sp → f ctx args = (r, some e) →
        (s.QueryContext ctx args w).1 = .ret (r, some e) ∧
        ∃ pre, (s.QueryContext ctx args w).2.trace = pre ++ [.error sp e.Error, .spanEnd sp]) ∧
    (∀ sp r values, s.stmt.QueryContext = none → namedValueToValue args = .ok values →
      (createSpan ctx s.tracer s.opts "query" w).1 = .ok sp → s.stmt.Query values = (r, some e) →
        (s.QueryContext ctx args w).1 = .ret (r, some e) ∧
        ∃ pre, (s.QueryContext ctx args w).2.trace = pre ++ [.error sp e.Error, .spanEnd sp]) := by
  obtain ⟨dbType, peer, rq, rp⟩ := o
  obtain ⟨n, tr⟩ := w
  refine ⟨?_, ?_, ?_, ?_, ?_, ?_, ?_, ?_, ?_⟩
  · intro pinger sp hp h he
    simp [conn.Ping, hp, (createSpan_ok h).2, he, World.emit, Span.End, errorRecords]
  · intro f sp r hcap h he
    rw [hc] at h
    simp only [conn.ExecContext, hc, (createSpan_ok h).2, hcap, he]
    cases rq <;> cases rp <;> simp [World.emit, Span.Tag, Span.End, errorRecords]
  · intro g sp r values hcap hargs hg h he
    rw [hc] at h
    simp only [conn.ExecContext, hc, (createSpan_ok h).2, hcap, hargs, conn.Exec, hg, he]
    cases rq <;> cases rp <;> simp [World.emit, Span.Tag, Span.End, errorRecords]
  · intro f sp r hcap h he
    rw [hc] at h
    simp only [conn.QueryContext, hc, (createSpan_ok h).2, hcap, he]
    cases rq <;> cases rp <;> simp [World.emit, Span.Tag, Span.End, errorRecords]
  · intro g sp r values hcap hargs hg h he
    rw [hc] at h
    simp only [conn.QueryContext, hc, (createSpan_ok h).2, hcap, hargs, conn.Query, hg, he]
    cases rq <;> cases rp <;> simp [World.emit, Span.Tag, Span.End, errorRecords]
  · intro f sp r hcap h he
    rw [hs] at h
    simp only [stmt.ExecContext, hs, (createSpan_ok h).2, hcap, he, World.emit, Span.Error,
      Span.End, true_and]
    exact ⟨_, List.append_assoc _ _ _⟩
  · intro sp r values hcap hargs h he
    rw [hs] at h
    simp only [stmt.ExecContext, hs, (createSpan_ok h).2, hcap, hargs, stmt.Exec, he,
      World.emit, Span.Error, Span.End, true_and]
    exact ⟨_, List.append_assoc _ _ _⟩
  · intro f sp r hcap h he
    rw [hs] at h
    simp only [stmt.QueryContext, hs, (createSpan_ok h).2, hcap, he, World.emit, Span.Error,
      Span.End, true_and]
    exact ⟨_, List.append_assoc _ _ _⟩
  · intro sp r values hcap hargs h he
    rw [hs] at h
    simp only [stmt.QueryContext, hs, (createSpan_ok h).2, hcap, hargs, stmt.Query, he,
      World.emit, Span.Error, Span.End, true_and]
    exact ⟨_, List.append_assoc _ _ _⟩

/-- C6 as amended, at backends that fail with `backendError`: with every capability, and with
the legacy methods only. -/
theorem backend_error_returned_unmodified_witness :
    ((wrapConn (contextConn (some backendError)) okTracer).Ping ⟨1⟩ World.init).1 =
      some backendError ∧
    ((wrapConn (contextConn (some backendError)) okTracer).QueryContext ⟨1⟩ "SELECT 1" []
      World.init).1 = .ret (none, some backendError) ∧
    ((wrapConn (legacyConn (some backendError)) okTracer).ExecContext ⟨1⟩ "SELECT 1" []
      World.init).1 = .ret (none, some backendError) ∧
    ((wrapStmt (contextStmt (some backendError)) okTracer).ExecContext ⟨1⟩ []
      World.init).1 = .ret (none, some backendError) ∧
    (∃ pre, ((wrapStmt (legacyStmt (some backendError)) okTracer).QueryContext ⟨1⟩ []
      World.init).2.trace = pre ++ [.error ⟨0⟩ backendError.Error, .spanEnd ⟨0⟩]) :=
  have h1 := backend_error_returned_unmodified
    (wrapConn (contextConn (some backendError)) okTracer)
    (wrapStmt (contextStmt (some backendError)) okTracer) sampleOpts ⟨1⟩ "SELECT 1" []
    World.init backendError rfl rfl
  have h2 := backend_error_returned_unmodified
    (wrapConn (legacyConn (some backendError)) okTracer)
    (wrapStmt (legacyStmt (some backendError)) okTracer) sampleOpts ⟨1⟩ "SELECT 1" []
    World.init backendError rfl rfl
  ⟨(h1.1 _ ⟨0⟩ rfl rfl rfl).1, (h1.2.2.2.1 _ ⟨0⟩ none rfl rfl rfl).1,
    (h2.2.2.1 _ ⟨0⟩ none [] rfl rfl rfl rfl rfl).1,
    (h1.2.2.2.2.2.1 _ ⟨0⟩ none rfl rfl rfl).1,
    (h2.2.2.2.2.2.2.2.2 ⟨0⟩ none [] rfl rfl rfl rfl).2⟩

/-! ## C7: `Ping` and the `driver.Pinger` capability -/

/-- C7: when the wrapped connection does not implement `driver.Pinger`, `conn.Ping` returns
`ErrUnsupportedOp` and leaves the world as it was: `createSpan` is not called and the backend
sees no call. When it implements `driver.Pinger` and the span is created, `conn.Ping` returns
what the backend `Ping` returns, after that single backend call. -/
theorem ping_capability (c : conn) (ctx : Context) (w : World) :
    (c.conn.Pinger = none →
      c.Ping ctx w = (some ErrUnsupportedOp, w) ∧
      tracerCalls (c.Ping ctx w).2.trace = tracerCalls w.trace ∧
      backendCalls (c.Ping ctx w).2.trace = backendCalls w.trace) ∧
    (∀ pinger sp, c.conn.Pinger = some pinger →
      (createSpan ctx c.tracer c.opts "ping" w).1 = .ok sp →
        (c.Ping ctx w).1 = pinger ctx ∧
        backendCalls (c.Ping ctx w).2.trace = backendCalls w.trace ++ [.ping ctx]) := by
  refine ⟨?_, ?_⟩
  · intro h
    simp [conn.Ping, h]
  · intro pinger sp hp h
    simp [conn.Ping, hp, (createSpan_ok h).2, World.emit, Span.End, backendCalls_append,
      backendCalls]

/-- C7 at a backend without `driver.Pinger` and at one whose `Ping` fails. -/
theorem ping_capability_witness :
    (wrapConn (legacyConn none) okTracer).Ping ⟨1⟩ World.init =
      (some ErrUnsupportedOp, World.init) ∧
    ((wrapConn (contextConn (some backendError)) okTracer).Ping ⟨1⟩ World.init).1 =
      some backendError ∧
    ((wrapConn (contextConn none) okTracer).Ping ⟨1⟩ World.init).1 = none :=
  ⟨((ping_capability (wrapConn (legacyConn none) okTracer) ⟨1⟩ World.init).1 rfl).1,
   ((ping_capability (wrapConn (contextConn (some backendError)) okTracer) ⟨1⟩ World.init).2
      _ ⟨0⟩ rfl rfl).1,
   ((ping_capability (wrapConn (contextConn none) okTracer) ⟨1⟩ World.init).2
      _ ⟨0⟩ rfl rfl).1⟩

/-! ## C8: `swDriver.Open` -/

/-- C8 fails in its last part: the real driver opens a connection and `swDriver.Open` returns
a wrapper around it that holds no configuration (the literal sets `conn`, `tracer` and `addr`,
and `opts` stays nil); `conn.ExecContext` on that wrapper creates its span and then crashes on
the nil `opts`, the deferred `End` being the only other call. -/
theorem open_wrapper_crashes_on_execContext :
    ∃ c w1, (sampleDriver none okTracer).Open sampleParseAddr
        "user:password@tcp(mysql:3306)/database" World.init = (.ok c, w1) ∧
      c.opts = none ∧
      c.ExecContext ⟨1⟩ "DROP TABLE IF EXISTS users" [] w1 =
        (.nilDeref,
         { nextSpan := 2,
           trace := [.createExitSpan ⟨0⟩ "mysql/open" "user:password@tcp(mysql:3306)/database"
               (some ⟨0⟩),
             .call (.driverOpen "user:password@tcp(mysql:3306)/database"), .spanEnd ⟨0⟩,
             .createSpan ⟨1⟩ "execute" (some ⟨1⟩), .spanEnd ⟨1⟩] }) :=
  ⟨_, _, rfl, rfl, rfl⟩

/-- The other parts of the claim hold: when `CreateExitSpan` fails with `e`, `swDriver.Open`
returns `e` and the real driver sees no call; when the span is created, the real driver's
`Open` is called once, with the same name, its error is returned unchanged with no wrapper,
and on success the wrapper returned holds the connection of the real driver and the tracer
of the driver wrapper. -/
theorem open_brackets_real_open (parseAddr : String → DBType → String) (d : swDriver)
    (name : String) (w : World) :
    (∀ e, (d.tracer.createExitSpan Context.Background (genOpName d.dbType "open")
        (parseAddr name d.dbType) w).1 = .error e →
      (d.Open parseAddr name w).1 = .error e ∧
      backendCalls (d.Open parseAddr name w).2.trace = backendCalls w.trace) ∧
    (∀ sp, (d.tracer.createExitSpan Context.Background (genOpName d.dbType "open")
        (parseAddr name d.dbType) w).1 = .ok sp →
      backendCalls (d.Open parseAddr name w).2.trace =
        backendCalls w.trace ++ [.driverOpen name] ∧
      (∀ e, d.driver.Open name = .error e → (d.Open parseAddr name w).1 = .error e) ∧
      (∀ b, d.driver.Open name = .ok b →
        ∃ c, (d.Open parseAddr name w).1 = .ok c ∧ c.conn = b ∧ c.tracer = d.tracer)) := by
  unfold swDriver.Open Tracer.createExitSpan
  cases ht : d.tracer.CreateExitSpan Context.Background (genOpName d.dbType "open")
      (parseAddr name d.dbType) with
  | some err =>
    refine ⟨?_, ?_⟩
    · intro e h
      simp only [ht] at h
      cases h
      simp [ht, World.emit, backendCalls]
    · intro sp h
      simp [ht] at h
  | none =>
    refine ⟨?_, ?_⟩
    · intro e h
      simp [ht] at h
    · intro sp h
      cases hb : d.driver.Open name <;>
        simp [ht, hb, World.emit, Span.End, backendCalls]

/-! ## C9: `BeginTx` creates its span first and hands it to the transaction wrapper -/

/-- C9 fails in the legacy fallback: the backend has the legacy `Begin` only, and the wrapper
returned by `conn.BeginTx` does not hold the transaction of the backend: it holds the wrapper
that `conn.Begin` returned (which holds that transaction and no span). -/
theorem beginTx_fallback_wraps_begin_wrapper :
    (legacyConn none).Begin = .ok sampleTx ∧
    ∃ t, ((wrapConn (legacyConn none) okTracer).BeginTx ⟨1⟩ ⟨0, false⟩ World.init).1 =
        .ret (.ok t) ∧
      t.tx = .wrapper (.backend sampleTx) none ∧ t.tx ≠ .backend sampleTx :=
  ⟨rfl, _, rfl, rfl, by decide⟩

/-- C9 as amended: for a connection wrapper with a configuration, `conn.BeginTx` calls
`createSpan` for `beginTransaction` first: when that fails with `e` it returns `e` and the
backend sees no call; when it yields the span `sp`, the log of `BeginTx` is the span
creation, the two tags, and only then the one backend call (`BeginTx` when the backend
implements `driver.ConnBeginTx`, the legacy `Begin` otherwise). When the context-aware call
succeeds with `t`, the wrapper returned holds `t` itself and the span `sp`; when the legacy
fallback succeeds with `t`, the wrapper returned holds `sp` and the wrapper of `conn.Begin`,
which holds `t` and no span. `BeginTx` does not call `End` on `sp`. A wrapper returned by
`conn.Begin` holds no span. -/
theorem beginTx_span_first_and_handed_over (c : conn) (o : options) (ctx : Context)
    (opts : TxOptions) (w : World) (hc : c.opts = some o) :
    (∀ e, (createSpan ctx c.tracer c.opts "beginTransaction" w).1 = .error e →
      (c.BeginTx ctx opts w).1 = .ret (.error e) ∧
      backendCalls (c.BeginTx ctx opts w).2.trace = backendCalls w.trace) ∧
    (∀ sp, (createSpan ctx c.tracer c.opts "beginTransaction" w).1 = .ok sp →
      (∀ f, c.conn.ConnBeginTx = some f →
        (c.BeginTx ctx opts w).2.trace = w.trace ++
          [.createSpan ctx "beginTransaction" (some sp), .tag sp tagDbType o.dbType,
           .tag sp tagDbInstance o.peer, .call (.beginTx ctx opts)] ∧
        ∀ t, f ctx opts = .ok t →
          (c.BeginTx ctx opts w).1 = .ret (.ok { tx := .backend t, span := some sp })) ∧
      (c.conn.ConnBeginTx = none →
        (c.BeginTx ctx opts w).2.trace = w.trace ++
          [.createSpan ctx "beginTransaction" (some sp), .tag sp tagDbType o.dbType,
           .tag sp tagDbInstance o.peer, .call .begin] ∧
        ∀ t, c.conn.Begin = .ok t →
          (c.BeginTx ctx opts w).1 =
            .ret (.ok { tx := .wrapper (.backend t) none, span := some sp })) ∧
      endCount sp (c.BeginTx ctx opts w).2.trace = endCount sp w.trace) ∧
    (∀ t w1, c.conn.Begin = .ok t → (c.Begin w1).1 = .ok { tx := .backend t, span := none }) := by
  refine ⟨?_, ?_, ?_⟩
  · intro e h
    simp [conn.BeginTx, createSpan_error h, World.emit, backendCalls]
  · intro sp hspan
    obtain ⟨-, h⟩ := createSpan_ok hspan
    refine ⟨?_, ?_, ?_⟩
    · intro f hf
      unfold conn.BeginTx
      rw [h, hc]
      simp only [hf]
      cases hb : f ctx opts <;> simp [World.emit, Span.Tag]
    · intro hf
      unfold conn.BeginTx conn.Begin
      rw [h, hc]
      simp only [hf]
      cases hb : c.conn.Begin <;> simp [World.emit, Span.Tag, tx.toTxValue]
    · unfold conn.BeginTx conn.Begin
      rw [h, hc]
      cases hf : c.conn.ConnBeginTx with
      | none => cases hb : c.conn.Begin <;> simp [hb, World.emit, Span.Tag, endCount]
      | some f => cases hb : f ctx opts <;> simp [hb, World.emit, Span.Tag, endCount]
  · intro t w1 hb
    simp [conn.Begin, hb]

/-- C9 as amended, at a tracer that refuses the span, at a backend with
`driver.ConnBeginTx` and at one with the legacy `Begin` only. -/
theorem beginTx_span_first_and_handed_over_witness :
    ((wrapConn (contextConn none) refusingTracer).BeginTx ⟨1⟩ ⟨0, false⟩ World.init).1 =
      .ret (.error tracerError) ∧
    ((wrapConn (contextConn none) okTracer).BeginTx ⟨1⟩ ⟨0, false⟩ World.init).1 =
      .ret (.ok { tx := .backend sampleTx, span := some ⟨0⟩ }) ∧
    ((wrapConn (legacyConn none) okTracer).BeginTx ⟨1⟩ ⟨0, false⟩ World.init).2.trace =
      [.createSpan ⟨1⟩ "beginTransaction" (some ⟨0⟩), .tag ⟨0⟩ tagDbType MYSQL,
       .tag ⟨0⟩ tagDbInstance "mysql:3306", .call .begin] ∧
    ((wrapConn (legacyConn none) okTracer).Begin World.init).1 =
      .ok { tx := .backend sampleTx, span := none } :=
  have h0 := (beginTx_span_first_and_handed_over (wrapConn (contextConn none) refusingTracer)
    sampleOpts ⟨1⟩ ⟨0, false⟩ World.init rfl).1 tracerError rfl
  have h1 := (beginTx_span_first_and_handed_over (wrapConn (contextConn none) okTracer)
    sampleOpts ⟨1⟩ ⟨0, false⟩ World.init rfl).2.1 ⟨0⟩ rfl
  have h2 := beginTx_span_first_and_handed_over (wrapConn (legacyConn none) okTracer)
    sampleOpts ⟨1⟩ ⟨0, false⟩ World.init rfl
  ⟨h0.1, (h1.1 _ rfl).2 sampleTx rfl, ((h2.2.1 ⟨0⟩ rfl).2.1 rfl).1,
    h2.2.2 sampleTx World.init rfl⟩

/-! ## C10: `stmt.QueryContext` against `stmt.ExecContext` -/

/-- C10 fails when the conversion of the arguments fails: on the same statement and the same
arguments (one carries the name `name`), `stmt.ExecContext` emits the tags, the `Error` record
of the conversion error and `End` twice, while `stmt.QueryContext` emits the tags and `End`
once, with no `Error` record. -/
theorem stmt_queryContext_conversion_failure_not_symmetric :
    spanEvents ((wrapStmt (legacyStmt none) okTracer).ExecContext ⟨2⟩
      [⟨"", 1, .str "1"⟩, ⟨"name", 2, .str "bar"⟩] World.init).2.trace =
      [.tag "db.type" "mysql", .tag "db.instance" "mysql:3306",
       .tag "db.statement" "SELECT name FROM users WHERE id = ?",
       .error "sql: driver does not support the use of Named Parameters",
       .spanEnd, .spanEnd] ∧
    spanEvents ((wrapStmt (legacyStmt none) okTracer).QueryContext ⟨2⟩
      [⟨"", 1, .str "1"⟩, ⟨"name", 2, .str "bar"⟩] World.init).2.trace =
      [.tag "db.type" "mysql", .tag "db.instance" "mysql:3306",
       .tag "db.statement" "SELECT name FROM users WHERE id = ?", .spanEnd] ∧
    ((wrapStmt (legacyStmt none) okTracer).QueryContext ⟨2⟩
      [⟨"", 1, .str "1"⟩, ⟨"name", 2, .str "bar"⟩] World.init).1 =
      .ret (none, some ErrNamedParameters) ∧
    errorRecords ⟨0⟩ ((wrapStmt (legacyStmt none) okTracer).QueryContext ⟨2⟩
      [⟨"", 1, .str "1"⟩, ⟨"name", 2, .str "bar"⟩] World.init).2.trace = [] := by
  decide

/-- On the other paths the two statement operations emit the same span calls: with both
context-aware capabilities present and the same error outcome of the delegates, and with
neither present, a successful conversion and the same error outcome of the legacy calls. -/
theorem stmt_span_events_agree_elsewhere (s : stmt) (o : options) (ctx : Context)
    (args : List NamedValue) (w : World) (spE spQ : Span) (hs : s.opts = some o)
    (hE : (createSpan ctx s.tracer s.opts "execute" w).1 = .ok spE)
    (hQ : (createSpan ctx s.tracer s.opts "query" w).1 = .ok spQ) :
    (∀ f g, s.stmt.ExecContext = some f → s.stmt.QueryContext = some g →
      (f ctx args).2 = (g ctx args).2 →
        spanEvents (s.ExecContext ctx args w).2.trace =
          spanEvents (s.QueryContext ctx args w).2.trace) ∧
    (∀ values, s.stmt.ExecContext = none → s.stmt.QueryContext = none →
      namedValueToValue args = .ok values → (s.stmt.Exec values).2 = (s.stmt.Query values).2 →
        spanEvents (s.ExecContext ctx args w).2.trace =
          spanEvents (s.QueryContext ctx args w).2.trace) := by
  obtain ⟨dbType, peer, rq, rp⟩ := o
  obtain ⟨n, tr⟩ := w
  obtain ⟨rfl, hE⟩ := createSpan_ok hE
  obtain ⟨rfl, hQ⟩ := createSpan_ok hQ
  refine ⟨?_, ?_⟩
  · intro f g hf hg hfg
    unfold stmt.ExecContext stmt.QueryContext
    rw [hE, hQ, hs]
    simp only [hf, hg, ← hfg]
    cases hr : (f ctx args).2 <;> cases rq <;> cases rp <;>
      simp only [Bool.false_eq_true, if_true, if_false, Span.End, Span.Tag, Span.Error,
        spanEvents_emit] <;>
      simp [spanEvents]
  · intro values hf hg hconv hfg
    unfold stmt.ExecContext stmt.QueryContext stmt.Exec stmt.Query
    rw [hE, hQ, hs]
    simp only [hf, hg, hconv, ← hfg]
    cases hr : (s.stmt.Exec values).2 <;> cases rq <;> cases rp <;>
      simp only [Bool.false_eq_true, if_true, if_false, Span.End, Span.Tag, Span.Error,
        spanEvents_emit] <;>
      simp [spanEvents]

end Sql
